import Mathlib

/-!
Verification development for the SceneManager of the CS-330 final-project
repository (`Source/SceneManager.cpp`).  The C++ code is shallowly embedded:

* GLM vectors and 4x4 matrices become `Vec3`/`Vec4`/`Mat4` over `ℚ`.
  GLM stores matrices column-major (`m[col][row]`); `Mat4` holds the same
  entries indexed row-major (`mRC` is row `R`, column `C`), so GLM's
  `operator*` is exactly `Mat4.mul` (the standard matrix product).
* `glm::rotate(angle, axis)` computes `c = cos angle`, `s = sin angle` and
  builds a Rodrigues rotation matrix from the normalized axis.  The scene
  code only ever rotates about the unit axes (1,0,0), (0,1,0), (0,0,1),
  for which normalization is the identity, so `glmRotate` takes the cosine,
  the sine and the (already unit) axis components directly.  Angle-to-
  cosine/sine evaluation (`cos ∘ radians`, `sin ∘ radians` on degrees) is
  kept abstract as a pair of functions `cosd sind : ℚ → ℚ`; every theorem
  below is universally quantified over them.
* The mutable members of `SceneManager` (`m_textureIDs` together with
  `m_loadedTextures`, `m_objectMaterials`, `m_pShaderManager`) become the
  fields of `SceneState`; the first `m_loadedTextures` slots of the 16-entry
  array are modelled as a list (the lookup loops only ever scan those
  slots).  `glGenTextures` hands out fresh handles, modelled by the
  `nextTextureID` counter.
* Calls into `ShaderManager` and mesh draws are recorded as a `TraceOp`
  trace; GL resource calls of the texture teardown are recorded as `GLCall`s.
-/

namespace SceneMgr

/-- Rational 3-vector standing in for `glm::vec3`. -/
structure Vec3 where
  x : ℚ
  y : ℚ
  z : ℚ
deriving DecidableEq

/-- Rational 4-vector standing in for `glm::vec4`. -/
structure Vec4 where
  r : ℚ
  g : ℚ
  b : ℚ
  a : ℚ
deriving DecidableEq

/-- Rational 4x4 matrix standing in for `glm::mat4`; `mRC` is the entry in
row `R`, column `C` (GLM's `m[C][R]`). -/
@[ext]
structure Mat4 where
  m00 : ℚ
  m01 : ℚ
  m02 : ℚ
  m03 : ℚ
  m10 : ℚ
  m11 : ℚ
  m12 : ℚ
  m13 : ℚ
  m20 : ℚ
  m21 : ℚ
  m22 : ℚ
  m23 : ℚ
  m30 : ℚ
  m31 : ℚ
  m32 : ℚ
  m33 : ℚ
deriving DecidableEq

/-- Standard matrix product; with the row/column reading above this is
exactly GLM's `mat4 operator*`. -/
def Mat4.mul (A B : Mat4) : Mat4 where
  m00 := A.m00 * B.m00 + A.m01 * B.m10 + A.m02 * B.m20 + A.m03 * B.m30
  m01 := A.m00 * B.m01 + A.m01 * B.m11 + A.m02 * B.m21 + A.m03 * B.m31
  m02 := A.m00 * B.m02 + A.m01 * B.m12 + A.m02 * B.m22 + A.m03 * B.m32
  m03 := A.m00 * B.m03 + A.m01 * B.m13 + A.m02 * B.m23 + A.m03 * B.m33
  m10 := A.m10 * B.m00 + A.m11 * B.m10 + A.m12 * B.m20 + A.m13 * B.m30
  m11 := A.m10 * B.m01 + A.m11 * B.m11 + A.m12 * B.m21 + A.m13 * B.m31
  m12 := A.m10 * B.m02 + A.m11 * B.m12 + A.m12 * B.m22 + A.m13 * B.m32
  m13 := A.m10 * B.m03 + A.m11 * B.m13 + A.m12 * B.m23 + A.m13 * B.m33
  m20 := A.m20 * B.m00 + A.m21 * B.m10 + A.m22 * B.m20 + A.m23 * B.m30
  m21 := A.m20 * B.m01 + A.m21 * B.m11 + A.m22 * B.m21 + A.m23 * B.m31
  m22 := A.m20 * B.m02 + A.m21 * B.m12 + A.m22 * B.m22 + A.m23 * B.m32
  m23 := A.m20 * B.m03 + A.m21 * B.m13 + A.m22 * B.m23 + A.m23 * B.m33
  m30 := A.m30 * B.m00 + A.m31 * B.m10 + A.m32 * B.m20 + A.m33 * B.m30
  m31 := A.m30 * B.m01 + A.m31 * B.m11 + A.m32 * B.m21 + A.m33 * B.m31
  m32 := A.m30 * B.m02 + A.m31 * B.m12 + A.m32 * B.m22 + A.m33 * B.m32
  m33 := A.m30 * B.m03 + A.m31 * B.m13 + A.m32 * B.m23 + A.m33 * B.m33

/-- Embedding of `glm::scale(v)`: the diagonal scaling matrix. -/
def glmScale (v : Vec3) : Mat4 where
  m00 := v.x
  m01 := 0
  m02 := 0
  m03 := 0
  m10 := 0
  m11 := v.y
  m12 := 0
  m13 := 0
  m20 := 0
  m21 := 0
  m22 := v.z
  m23 := 0
  m30 := 0
  m31 := 0
  m32 := 0
  m33 := 1

/-- Embedding of `glm::translate(v)`: identity with `v` in the last column. -/
def glmTranslate (v : Vec3) : Mat4 where
  m00 := 1
  m01 := 0
  m02 := 0
  m03 := v.x
  m10 := 0
  m11 := 1
  m12 := 0
  m13 := v.y
  m20 := 0
  m21 := 0
  m22 := 1
  m23 := v.z
  m30 := 0
  m31 := 0
  m32 := 0
  m33 := 1

/-- Embedding of `glm::rotate(angle, axis)` for an already-normalized axis
`(ax, ay, az)`, with `c = cos angle` and `s = sin angle`: the Rodrigues
matrix GLM builds (GLM normalizes the axis first, which is the identity on
the unit axes used by `SetTransformations`).  GLM's `Rotate[col][row]`
entries appear here at `m(row)(col)`. -/
def glmRotate (c s ax ay az : ℚ) : Mat4 :=
  let t0 : ℚ := (1 - c) * ax
  let t1 : ℚ := (1 - c) * ay
  let t2 : ℚ := (1 - c) * az
  { m00 := c + t0 * ax
    m01 := t1 * ax - s * az
    m02 := t2 * ax + s * ay
    m03 := 0
    m10 := t0 * ay + s * az
    m11 := c + t1 * ay
    m12 := t2 * ay - s * ax
    m13 := 0
    m20 := t0 * az - s * ay
    m21 := t1 * az + s * ax
    m22 := c + t2 * az
    m23 := 0
    m30 := 0
    m31 := 0
    m32 := 0
    m33 := 1 }

/-- Model matrix exactly as `SetTransformations` computes it:
`translation * rotationX * rotationY * rotationZ * scale` with GLM's
left-associated `operator*`, where `(cx, sx)` are cosine/sine of the X
rotation angle, and so on. -/
def buildModelMatrix (cx sx cy sy cz sz : ℚ) (scaleXYZ positionXYZ : Vec3) : Mat4 :=
  let scale := glmScale scaleXYZ
  let rotationX := glmRotate cx sx 1 0 0
  let rotationY := glmRotate cy sy 0 1 0
  let rotationZ := glmRotate cz sz 0 0 1
  let translation := glmTranslate positionXYZ
  ((((translation.mul rotationX).mul rotationY).mul rotationZ).mul scale)

/-- Canonical rotation about the world X axis, as the spec words it
(`RotateX`), with `c`/`s` the cosine/sine of the angle. -/
def specRotateX (c s : ℚ) : Mat4 where
  m00 := 1
  m01 := 0
  m02 := 0
  m03 := 0
  m10 := 0
  m11 := c
  m12 := -s
  m13 := 0
  m20 := 0
  m21 := s
  m22 := c
  m23 := 0
  m30 := 0
  m31 := 0
  m32 := 0
  m33 := 1

/-- Canonical rotation about the world Y axis (`RotateY` of the spec). -/
def specRotateY (c s : ℚ) : Mat4 where
  m00 := c
  m01 := 0
  m02 := s
  m03 := 0
  m10 := 0
  m11 := 1
  m12 := 0
  m13 := 0
  m20 := -s
  m21 := 0
  m22 := c
  m23 := 0
  m30 := 0
  m31 := 0
  m32 := 0
  m33 := 1

/-- Canonical rotation about the world Z axis (`RotateZ` of the spec). -/
def specRotateZ (c s : ℚ) : Mat4 where
  m00 := c
  m01 := -s
  m02 := 0
  m03 := 0
  m10 := s
  m11 := c
  m12 := 0
  m13 := 0
  m20 := 0
  m21 := 0
  m22 := 1
  m23 := 0
  m30 := 0
  m31 := 0
  m32 := 0
  m33 := 1

/-- Model matrix as the spec words it: the product
`Translate(t) * RotateX * RotateY * RotateZ * Scale(s)` of the canonical
world-axis rotation matrices with the translation and scaling matrices. -/
def specModelMatrix (cx sx cy sy cz sz : ℚ) (scaleXYZ positionXYZ : Vec3) : Mat4 :=
  ((((glmTranslate positionXYZ).mul (specRotateX cx sx)).mul
      (specRotateY cy sy)).mul (specRotateZ cz sz)).mul (glmScale scaleXYZ)

theorem glmRotate_axisX (c s : ℚ) : glmRotate c s 1 0 0 = specRotateX c s := by
  unfold glmRotate specRotateX
  ext <;> ring

theorem glmRotate_axisY (c s : ℚ) : glmRotate c s 0 1 0 = specRotateY c s := by
  unfold glmRotate specRotateY
  ext <;> ring

theorem glmRotate_axisZ (c s : ℚ) : glmRotate c s 0 0 1 = specRotateZ c s := by
  unfold glmRotate specRotateZ
  ext <;> ring

theorem buildModelMatrix_eq_spec (cx sx cy sy cz sz : ℚ) (scaleXYZ positionXYZ : Vec3) :
    buildModelMatrix cx sx cy sy cz sz scaleXYZ positionXYZ =
      specModelMatrix cx sx cy sy cz sz scaleXYZ positionXYZ := by
  unfold buildModelMatrix specModelMatrix
  rw [glmRotate_axisX, glmRotate_axisY, glmRotate_axisZ]

/-- Entry of the `m_textureIDs` array: a tag string paired with the GL
texture handle (`_TEXTURE_ID { std::string tag; uint32_t ID; }`). -/
structure TEXTURE_ID where
  tag : String
  id : Int
deriving DecidableEq

/-- Embedding of the C++ `OBJECT_MATERIAL` struct. -/
structure OBJECT_MATERIAL where
  ambientColor : Vec3
  ambientStrength : ℚ
  diffuseColor : Vec3
  specularColor : Vec3
  shininess : ℚ
  tag : String
deriving DecidableEq

/-- Mutable members of `SceneManager` that the claims are about.
`textureIDs` models the first `m_loadedTextures` slots of the 16-entry
`m_textureIDs` array (so `m_loadedTextures = textureIDs.length`);
`hasShader` records whether `m_pShaderManager` is non-null; `nextTextureID`
models the fresh handles `glGenTextures` produces. -/
structure SceneState where
  textureIDs : List TEXTURE_ID
  objectMaterials : List OBJECT_MATERIAL
  hasShader : Bool
  nextTextureID : Int
deriving DecidableEq

/-- Result of a successful `stbi_load` decode: width, height and the
channel count that `CreateGLTexture` branches on. -/
structure ImageData where
  width : Nat
  height : Nat
  colorChannels : Nat
deriving DecidableEq

/-- GL resource-management calls recorded by the texture teardown. -/
inductive GLCall where
  | genTextures (newID : Int)
  | deleteTextures (id : Int)
deriving DecidableEq

/-- Shape meshes drawn by the scene-composer routines. -/
inductive MeshKind where
  | plane
  | box
  | cylinder
  | sphere
  | taperedCylinder
  | halfTorus
  | prism
deriving DecidableEq

/-- Calls pushed through `m_pShaderManager` plus the mesh draws, i.e. the
observable trace of the render-phase helpers.  The C++ passes C++ `bool`s
to `setIntValue`, which converts them to `0`/`1`. -/
inductive TraceOp where
  | setMat4Value (name : String) (m : Mat4)
  | setIntValue (name : String) (v : Int)
  | setFloatValue (name : String) (v : ℚ)
  | setVec2Value (name : String) (u v : ℚ)
  | setVec3Value (name : String) (v : Vec3)
  | setVec4Value (name : String) (v : Vec4)
  | setSampler2DValue (name : String) (v : Int)
  | drawMesh (kind : MeshKind)
deriving DecidableEq

/-- Embedding of `SceneManager::CreateGLTexture`.  `image` is the result of
`stbi_load` (`none` = decode failure).  On a successful decode the code
first calls `glGenTextures` (handing out a fresh handle), then branches on
the channel count: 3 (RGB) and 4 (RGBA) upload the pixels and register the
`(tag, handle)` pair at slot `m_loadedTextures`; any other channel count
logs and returns `false` before touching the registry. -/
def CreateGLTexture (s : SceneState) (image : Option ImageData) (tag : String) :
    Bool × SceneState :=
  match image with
  | some img =>
      let textureID := s.nextTextureID
      let s1 := { s with nextTextureID := s.nextTextureID + 1 }
      if img.colorChannels = 3 then
        (true, { s1 with textureIDs := s1.textureIDs ++ [{ tag := tag, id := textureID }] })
      else if img.colorChannels = 4 then
        (true, { s1 with textureIDs := s1.textureIDs ++ [{ tag := tag, id := textureID }] })
      else
        (false, s1)
  | none => (false, s)

/-- Loop body of `SceneManager::DestroyGLTextures`: for each of the first
`m_loadedTextures` entries the code calls `glGenTextures(1, &entry.ID)`,
which allocates a fresh handle and overwrites the stored one (it never
calls `glDeleteTextures`). -/
def destroyAux (next : Int) : List TEXTURE_ID → List GLCall × List TEXTURE_ID × Int
  | [] => ([], [], next)
  | e :: rest =>
      let r := destroyAux (next + 1) rest
      (GLCall.genTextures next :: r.1, { e with id := next } :: r.2.1, r.2.2)

/-- Embedding of `SceneManager::DestroyGLTextures`, returning the emitted
GL calls together with the updated state. -/
def DestroyGLTextures (s : SceneState) : List GLCall × SceneState :=
  let r := destroyAux s.nextTextureID s.textureIDs
  (r.1, { s with textureIDs := r.2.1, nextTextureID := r.2.2 })

/-- Loop of `SceneManager::FindTextureID`: linear scan of the loaded
entries, returning the stored handle of the first tag match, `-1` when no
entry matches. -/
def findIDAux : List TEXTURE_ID → String → Int
  | [], _ => -1
  | e :: rest, tag => if e.tag = tag then e.id else findIDAux rest tag

/-- Embedding of `SceneManager::FindTextureID`. -/
def FindTextureID (s : SceneState) (tag : String) : Int :=
  findIDAux s.textureIDs tag

/-- Loop of `SceneManager::FindTextureSlot`: linear scan tracking the slot
index, returning the index of the first tag match, `-1` when no entry
matches. -/
def findSlotAux : List TEXTURE_ID → String → Int → Int
  | [], _, _ => -1
  | e :: rest, tag, idx => if e.tag = tag then idx else findSlotAux rest tag (idx + 1)

/-- Embedding of `SceneManager::FindTextureSlot`. -/
def FindTextureSlot (s : SceneState) (tag : String) : Int :=
  findSlotAux s.textureIDs tag 0

/-- Loop of `SceneManager::FindMaterial`: walks the material list and, at
the first tag match, copies the five value fields (not the tag) into the
caller's out-parameter `material`; past the end the out-parameter is left
as it was. -/
def findMaterialLoop (mats : List OBJECT_MATERIAL) (tag : String)
    (material : OBJECT_MATERIAL) : OBJECT_MATERIAL :=
  match mats with
  | [] => material
  | m :: rest =>
      if m.tag = tag then
        { material with
          ambientColor := m.ambientColor
          ambientStrength := m.ambientStrength
          diffuseColor := m.diffuseColor
          specularColor := m.specularColor
          shininess := m.shininess }
      else
        findMaterialLoop rest tag material

/-- Embedding of `SceneManager::FindMaterial` with its in/out parameter
`material`: the function returns `false` only when the material list is
empty; otherwise it runs the lookup loop and returns `true` regardless of
whether any tag matched. -/
def FindMaterial (mats : List OBJECT_MATERIAL) (tag : String)
    (material : OBJECT_MATERIAL) : Bool × OBJECT_MATERIAL :=
  if mats.length = 0 then
    (false, material)
  else
    (true, findMaterialLoop mats tag material)

/-- Embedding of `SceneManager::SetTransformations`: builds the model
matrix `translation * rotationX * rotationY * rotationZ * scale` from the
degree angles via the abstract cosine/sine evaluators and pushes it as the
shader's `"model"` uniform when the shader-manager pointer is non-null. -/
def SetTransformations (cosd sind : ℚ → ℚ) (s : SceneState) (scaleXYZ : Vec3)
    (XrotationDegrees YrotationDegrees ZrotationDegrees : ℚ) (positionXYZ : Vec3) :
    List TraceOp × SceneState :=
  let modelView := buildModelMatrix
    (cosd XrotationDegrees) (sind XrotationDegrees)
    (cosd YrotationDegrees) (sind YrotationDegrees)
    (cosd ZrotationDegrees) (sind ZrotationDegrees) scaleXYZ positionXYZ
  (if s.hasShader then [TraceOp.setMat4Value "model" modelView] else [], s)

/-- Embedding of `SceneManager::SetShaderColor`: when the shader-manager
pointer is non-null, disables texture mode and pushes the RGBA color. -/
def SetShaderColor (s : SceneState) (redColorValue greenColorValue blueColorValue alphaValue : ℚ) :
    List TraceOp × SceneState :=
  (if s.hasShader then
      [TraceOp.setIntValue "bUseTexture" 0,
       TraceOp.setVec4Value "objectColor"
         { r := redColorValue, g := greenColorValue, b := blueColorValue, a := alphaValue }]
    else [], s)

/-- Embedding of `SceneManager::SetShaderTexture`: when the shader-manager
pointer is non-null, enables texture mode and binds the sampler to
whatever `FindTextureSlot` returns (there is no guard against `-1`). -/
def SetShaderTexture (s : SceneState) (textureTag : String) :
    List TraceOp × SceneState :=
  (if s.hasShader then
      [TraceOp.setIntValue "bUseTexture" 1,
       TraceOp.setSampler2DValue "objectTexture" (FindTextureSlot s textureTag)]
    else [], s)

/-- Embedding of `SceneManager::SetTextureUVScale`. -/
def SetTextureUVScale (s : SceneState) (u v : ℚ) : List TraceOp × SceneState :=
  (if s.hasShader then [TraceOp.setVec2Value "UVscale" u v] else [], s)

/-- Value of the uninitialized local `OBJECT_MATERIAL material;` in
`SetShaderMaterial` (the C++ leaves the numeric fields indeterminate; no
theorem below depends on this choice). -/
def uninitMaterial : OBJECT_MATERIAL where
  ambientColor := { x := 0, y := 0, z := 0 }
  ambientStrength := 0
  diffuseColor := { x := 0, y := 0, z := 0 }
  specularColor := { x := 0, y := 0, z := 0 }
  shininess := 0
  tag := ""

/-- Embedding of `SceneManager::SetShaderMaterial`: when at least one
material is defined, looks the tag up and, when `FindMaterial` reports
`true`, pushes the five material uniforms.  (The C++ dereferences
`m_pShaderManager` here without a null check.) -/
def SetShaderMaterial (s : SceneState) (materialTag : String) :
    List TraceOp × SceneState :=
  (if s.objectMaterials.length > 0 then
      let result := FindMaterial s.objectMaterials materialTag uninitMaterial
      if result.1 = true then
        [TraceOp.setVec3Value "material.ambientColor" result.2.ambientColor,
         TraceOp.setFloatValue "material.ambientStrength" result.2.ambientStrength,
         TraceOp.setVec3Value "material.diffuseColor" result.2.diffuseColor,
         TraceOp.setVec3Value "material.specularColor" result.2.specularColor,
         TraceOp.setFloatValue "material.shininess" result.2.shininess]
      else []
    else [], s)

/-- Shorthand for `Vec3` literals. -/
def v3 (x y z : ℚ) : Vec3 := { x := x, y := y, z := z }

/-- The `"plastic"` material of `DefineObjectMaterials`. -/
def plasticMaterial : OBJECT_MATERIAL where
  ambientColor := v3 0.2 0.2 0.2
  ambientStrength := 0.3
  diffuseColor := v3 0.2 0.2 0.2
  specularColor := v3 0.4 0.4 0.4
  shininess := 12.0
  tag := "plastic"

/-- The `"metal"` material of `DefineObjectMaterials`. -/
def metalMaterial : OBJECT_MATERIAL where
  ambientColor := v3 0.2 0.2 0.2
  ambientStrength := 0.3
  diffuseColor := v3 0.2 0.2 0.2
  specularColor := v3 0.5 0.5 0.5
  shininess := 22.0
  tag := "metal"

/-- The `"cloth"` material of `DefineObjectMaterials`. -/
def clothMaterial : OBJECT_MATERIAL where
  ambientColor := v3 0.1 0.1 0.1
  ambientStrength := 0.2
  diffuseColor := v3 0.3 0.3 0.3
  specularColor := v3 0.1 0.1 0.1
  shininess := 0.3
  tag := "cloth"

/-- The `"glass"` material of `DefineObjectMaterials`. -/
def glassMaterial : OBJECT_MATERIAL where
  ambientColor := v3 0.4 0.4 0.4
  ambientStrength := 0.3
  diffuseColor := v3 0.3 0.3 0.3
  specularColor := v3 0.6 0.6 0.6
  shininess := 85.0
  tag := "glass"

/-- The `"matteFinish"` material of `DefineObjectMaterials`. -/
def matteMaterial : OBJECT_MATERIAL where
  ambientColor := v3 0.2 0.2 0.2
  ambientStrength := 0.2
  diffuseColor := v3 0.1 0.1 0.1
  specularColor := v3 0.0 0.0 0.0
  shininess := 0.0
  tag := "matteFinish"

/-- Embedding of `SceneManager::DefineObjectMaterials`: appends the five
scene materials, in source order, to `m_objectMaterials`. -/
def DefineObjectMaterials (s : SceneState) : SceneState :=
  { s with
    objectMaterials := s.objectMaterials ++
      [plasticMaterial, metalMaterial, clothMaterial, glassMaterial, matteMaterial] }

/-- The six `(filename, tag)` pairs `LoadSceneTextures` loads, in source
order. -/
def sceneTextureFiles : List (String × String) :=
  [("../../Utilities/textures/marble.jpg", "marble"),
   ("../../Utilities/textures/superhero-face.jpg", "face"),
   ("../../Utilities/textures/superhero-body.jpg", "body"),
   ("../../Utilities/textures/superhero-arm.jpg", "arm"),
   ("../../Utilities/textures/superhero-leg.jpg", "leg"),
   ("../../Utilities/textures/soda-can.jpg", "can")]

/-- Embedding of `SceneManager::LoadSceneTextures` parameterized by the
image decoder (`stbi_load` behaviour on each path): calls `CreateGLTexture`
for each of the six files in order, discarding the returned flag exactly as
the C++ reassigns and then ignores `bReturn`. -/
def LoadSceneTextures (decode : String → Option ImageData) (s : SceneState) : SceneState :=
  sceneTextureFiles.foldl (fun st p => (CreateGLTexture st (decode p.1) p.2).2) s

/-- Member-function calls a scene-composer routine makes, in order: the
composer-level operation trace of the render phase. -/
inductive SceneCall where
  | setTransformations (scaleXYZ : Vec3) (xr yr zr : ℚ) (positionXYZ : Vec3)
  | setShaderColor (r g b a : ℚ)
  | setShaderTexture (tag : String)
  | setShaderMaterial (tag : String)
  | setTextureUVScale (u v : ℚ)
  | draw (kind : MeshKind)
deriving DecidableEq

/-- Call sequence of `SceneManager::RenderDesktop` (the commented-out
`SetShaderColor` call in the source is omitted, as the compiler omits it). -/
def RenderDesktopCalls : List SceneCall :=
  [SceneCall.setTransformations (v3 20.0 1.0 30.0) 0 (-25.0) 0 (v3 10.0 (-1.0) 0.0),
   SceneCall.setShaderTexture "marble",
   SceneCall.setTextureUVScale 1.0 1.0,
   SceneCall.setShaderTexture "glass",
   SceneCall.draw MeshKind.plane]

/-- Call sequence of `SceneManager::RenderLegoMan`: eleven sub-parts, each
a transform push, then material/texture/color pushes, then a draw. -/
def RenderLegoManCalls : List SceneCall :=
  [SceneCall.setTransformations (v3 1.75 2.7 1.5) 0 0 0 (v3 (-0.2) 0.4 0.0),
   SceneCall.setShaderMaterial "cloth",
   SceneCall.setShaderTexture "leg",
   SceneCall.draw MeshKind.box,
   SceneCall.setTransformations (v3 1.75 2.7 1.5) 0 0 0 (v3 (-2.2) 0.4 0.0),
   SceneCall.setShaderMaterial "cloth",
   SceneCall.setShaderTexture "leg",
   SceneCall.draw MeshKind.box,
   SceneCall.setTransformations (v3 4.2 1.0 1.7) 180.0 0 0 (v3 (-1.25) 2.05 0.0),
   SceneCall.setShaderMaterial "cloth",
   SceneCall.setShaderTexture "leg",
   SceneCall.draw MeshKind.box,
   SceneCall.setTransformations (v3 2.25 4.0 1.25) 0 180.0 0 (v3 (-1.25) 2.5 0.0),
   SceneCall.setShaderMaterial "cloth",
   SceneCall.setShaderTexture "body",
   SceneCall.draw MeshKind.cylinder,
   SceneCall.setTransformations (v3 2.25 0.1 1.25) 0 0 0 (v3 (-1.25) 6.5 0.0),
   SceneCall.setShaderColor 0.2 0.2 0.2 1,
   SceneCall.setShaderMaterial "plastic",
   SceneCall.draw MeshKind.cylinder,
   SceneCall.setTransformations (v3 0.5 0.5 0.5) 0 0 0 (v3 (-1.25) 6.5 0.0),
   SceneCall.setShaderColor 0.2 0.2 0.2 1,
   SceneCall.setShaderMaterial "plastic",
   SceneCall.draw MeshKind.cylinder,
   SceneCall.setTransformations (v3 1.5 1.75 1.5) 0 0 0 (v3 (-1.25) 8.5 0.0),
   SceneCall.setShaderMaterial "cloth",
   SceneCall.setShaderTexture "face",
   SceneCall.draw MeshKind.sphere,
   SceneCall.setTransformations (v3 0.5 3.5 0.5) 0 180.0 (-10.0) (v3 1.5 3.0 0.0),
   SceneCall.setShaderTexture "arm",
   SceneCall.draw MeshKind.cylinder,
   SceneCall.setTransformations (v3 0.5 3.5 0.5) (-30.0) 0 (-10.0) (v3 (-4.0) 3.0 1.7),
   SceneCall.setShaderTexture "arm",
   SceneCall.draw MeshKind.cylinder,
   SceneCall.setTransformations (v3 0.7 0.7 0.7) 0 0 0 (v3 1.6 2.5 0.0),
   SceneCall.setShaderColor 0.2 0.2 0.2 1,
   SceneCall.setShaderMaterial "plastic",
   SceneCall.draw MeshKind.sphere,
   SceneCall.setTransformations (v3 0.7 0.7 0.7) 0 0 0 (v3 (-4.1) 2.5 2.1),
   SceneCall.setShaderColor 0.2 0.2 0.2 1,
   SceneCall.draw MeshKind.sphere]

/-- Call sequence of `SceneManager::RenderSodaCan`. -/
def RenderSodaCanCalls : List SceneCall :=
  [SceneCall.setTransformations (v3 3.5 9.0 3.5) 0 0 0 (v3 10.0 (-0.9) 10.0),
   SceneCall.setShaderColor 1.0 1.0 0.0 1,
   SceneCall.setShaderMaterial "plastic",
   SceneCall.setShaderTexture "can",
   SceneCall.draw MeshKind.cylinder,
   SceneCall.setTransformations (v3 3.5 0.1 3.5) 0 0 0 (v3 10.0 8.1 10.0),
   SceneCall.setShaderColor 0.7 0.7 0.7 1,
   SceneCall.setShaderMaterial "metal",
   SceneCall.draw MeshKind.taperedCylinder]

/-- Call sequence of `SceneManager::RenderHeadPhones`. -/
def RenderHeadPhonesCalls : List SceneCall :=
  [SceneCall.setTransformations (v3 5.0 16.0 7.0) 90.0 (-7.5) 255.0 (v3 10.0 2.75 (-3.0)),
   SceneCall.setShaderColor 1.0 1.0 1.0 1,
   SceneCall.setShaderMaterial "matteFinish",
   SceneCall.draw MeshKind.halfTorus,
   SceneCall.setTransformations (v3 3.15 3.15 3.15) 0 90.0 90.0 (v3 9.0 2.25 (-0.25)),
   SceneCall.setShaderColor 1.0 1.0 1.0 1,
   SceneCall.setShaderMaterial "matteFinish",
   SceneCall.draw MeshKind.cylinder,
   SceneCall.setTransformations (v3 3.15 3.15 3.15) 0 115.0 90.0 (v3 6.0 2.25 (-7.75)),
   SceneCall.setShaderColor 1.0 1.0 1.0 1,
   SceneCall.setShaderMaterial "matteFinish",
   SceneCall.draw MeshKind.cylinder]

/-- Call sequence of `SceneManager::RenderLampBase`. -/
def RenderLampBaseCalls : List SceneCall :=
  [SceneCall.setTransformations (v3 15.0 1.5 10.5) 0 0 0 (v3 7.75 0.0 (-17.75)),
   SceneCall.setShaderColor 0.1 0.1 0.2 1,
   SceneCall.setShaderMaterial "plastic",
   SceneCall.draw MeshKind.box,
   SceneCall.setTransformations (v3 4.5 4.5 8.25) 0 0 0 (v3 2.5 1.5 (-18.9)),
   SceneCall.setShaderColor 0.1 0.1 0.2 1,
   SceneCall.setShaderMaterial "plastic",
   SceneCall.draw MeshKind.box,
   SceneCall.setTransformations (v3 4.5 4.5 4.5) (-90.0) 0 90.0 (v3 2.5 1.5 (-14.77)),
   SceneCall.setShaderColor 0.1 0.1 0.2 1,
   SceneCall.setShaderMaterial "plastic",
   SceneCall.draw MeshKind.prism]

/-- Call sequence of `SceneManager::RenderScene`: the five object-group
routines in their hardcoded order. -/
def RenderSceneCalls : List SceneCall :=
  RenderDesktopCalls ++ RenderLegoManCalls ++ RenderSodaCanCalls ++
    RenderHeadPhonesCalls ++ RenderLampBaseCalls

/-- Dispatches one composer-level call to the embedded member function it
names, producing that call's shader/draw trace and successor state. -/
def execCall (cosd sind : ℚ → ℚ) (s : SceneState) : SceneCall → List TraceOp × SceneState
  | SceneCall.setTransformations scaleXYZ xr yr zr positionXYZ =>
      SetTransformations cosd sind s scaleXYZ xr yr zr positionXYZ
  | SceneCall.setShaderColor r g b a => SetShaderColor s r g b a
  | SceneCall.setShaderTexture tag => SetShaderTexture s tag
  | SceneCall.setShaderMaterial tag => SetShaderMaterial s tag
  | SceneCall.setTextureUVScale u v => SetTextureUVScale s u v
  | SceneCall.draw kind => ([TraceOp.drawMesh kind], s)

/-- Runs a list of composer-level calls in order, threading the state and
concatenating the traces. -/
def execCalls (cosd sind : ℚ → ℚ) (s : SceneState) : List SceneCall → List TraceOp × SceneState
  | [] => ([], s)
  | c :: rest =>
      let r := execCall cosd sind s c
      let r' := execCalls cosd sind r.2 rest
      (r.1 ++ r'.1, r'.2)

/-- Embedding of `SceneManager::RenderScene`: runs the fixed call sequence
of the five object-group routines against the current state. -/
def RenderScene (cosd sind : ℚ → ℚ) (s : SceneState) : List TraceOp × SceneState :=
  execCalls cosd sind s RenderSceneCalls

/-- Whether a composer-level call is a mesh draw. -/
def SceneCall.isDraw : SceneCall → Bool
  | SceneCall.draw _ => true
  | _ => false

/-- Whether a composer-level call is a transform push. -/
def SceneCall.isTransform : SceneCall → Bool
  | SceneCall.setTransformations _ _ _ _ _ => true
  | _ => false

/-- Whether a composer-level call is a material, texture or flat-color
push. -/
def SceneCall.isMatTexColor : SceneCall → Bool
  | SceneCall.setShaderColor _ _ _ _ => true
  | SceneCall.setShaderTexture _ => true
  | SceneCall.setShaderMaterial _ => true
  | _ => false

/-- Scanner for the draw-preparation invariant.  `hasT` records whether a
transform push has occurred since the previous draw (or the start of the
trace), `hasP` whether some material/texture/color push has occurred after
such a transform push; each draw requires both and resets the scan. -/
def drawPrepAux : Bool → Bool → List SceneCall → Bool
  | _, _, [] => true
  | hasT, hasP, c :: rest =>
      if c.isDraw then
        hasT && hasP && drawPrepAux false false rest
      else if c.isTransform then
        drawPrepAux true hasP rest
      else if c.isMatTexColor then
        drawPrepAux hasT (hasP || hasT) rest
      else
        drawPrepAux hasT hasP rest

/-- Draw-preparation invariant over a composer-level call list: every draw
is preceded, since the previous draw, first by a transform push and after
it by at least one material, texture or flat-color push. -/
def drawPrepOk (calls : List SceneCall) : Bool :=
  drawPrepAux false false calls

/-- State of a freshly constructed `SceneManager` with a non-null shader
manager: no textures loaded, no materials defined; GL handle numbering
starts at 1 (handle 0 is reserved by GL). -/
def initialState : SceneState where
  textureIDs := []
  objectMaterials := []
  hasShader := true
  nextTextureID := 1

/-- State of a `SceneManager` constructed with a null shader-manager
pointer. -/
def noShaderState : SceneState where
  textureIDs := []
  objectMaterials := []
  hasShader := false
  nextTextureID := 1

/-- Sample cosine evaluator (constant 3/5) used to instantiate the
abstract `cosd` in witnesses. -/
def demoCos : ℚ → ℚ := fun _ => 3 / 5

/-- Sample sine evaluator (constant 4/5) used to instantiate the abstract
`sind` in witnesses. -/
def demoSin : ℚ → ℚ := fun _ => 4 / 5

/-- Sample decoder on which every texture file decodes as a 1x1 RGB
image. -/
def demoDecode : String → Option ImageData :=
  fun _ => some { width := 1, height := 1, colorChannels := 3 }

/-- Registry state after running `LoadSceneTextures` with the sample
decoder on the fresh state. -/
def preparedState : SceneState :=
  LoadSceneTextures demoDecode initialState

/-- Whether a GL call allocates texture handles. -/
def GLCall.isGen : GLCall → Bool
  | GLCall.genTextures _ => true
  | GLCall.deleteTextures _ => false

/-- Sample state holding one loaded texture: tag `"marble"`, GL handle 7. -/
def exampleTexState : SceneState where
  textureIDs := [{ tag := "marble", id := 7 }]
  objectMaterials := []
  hasShader := true
  nextTextureID := 100

/-- Runs a sequence of texture loads whose decodes all succeed
(`CreateGLTexture` on `some image`), in order, discarding the success
flags. -/
def loadAll (s : SceneState) : List (ImageData × String) → SceneState
  | [] => s
  | p :: rest => loadAll (CreateGLTexture s (some p.1) p.2).2 rest

/-- Registry entries an all-successful load sequence appends: the i-th
load's tag paired with the i-th fresh handle. -/
def expectedEntries (next : Int) : List (ImageData × String) → List TEXTURE_ID
  | [] => []
  | p :: rest => { tag := p.2, id := next } :: expectedEntries (next + 1) rest

/-- Sample load sequence realizing the spec's end-to-end example: textures
`"marble"`, `"glass"`, then `"can"`. -/
def demoLoads : List (ImageData × String) :=
  [({ width := 4, height := 4, colorChannels := 3 }, "marble"),
   ({ width := 4, height := 4, colorChannels := 4 }, "glass"),
   ({ width := 2, height := 2, colorChannels := 3 }, "can")]

theorem destroyAux_all_gen (l : List TEXTURE_ID) :
    ∀ next : Int, ((destroyAux next l).1.all GLCall.isGen) = true := by
  induction l with
  | nil => intro next; rfl
  | cons e rest ih => intro next; simp [destroyAux, GLCall.isGen, ih]

theorem findSlotAux_not_mem (l : List TEXTURE_ID) (tag : String)
    (h : tag ∉ l.map TEXTURE_ID.tag) : ∀ k : Int, findSlotAux l tag k = -1 := by
  induction l with
  | nil => intro k; rfl
  | cons e rest ih =>
      intro k
      simp only [List.map_cons, List.mem_cons, not_or] at h
      simp only [findSlotAux]
      rw [if_neg (fun hh : e.tag = tag => h.1 hh.symm), ih h.2]

theorem findIDAux_not_mem (l : List TEXTURE_ID) (tag : String)
    (h : tag ∉ l.map TEXTURE_ID.tag) : findIDAux l tag = -1 := by
  induction l with
  | nil => rfl
  | cons e rest ih =>
      simp only [List.map_cons, List.mem_cons, not_or] at h
      simp only [findIDAux]
      rw [if_neg (fun hh : e.tag = tag => h.1 hh.symm), ih h.2]

theorem createGLTexture_success (s : SceneState) (img : ImageData) (tag : String)
    (h : img.colorChannels = 3 ∨ img.colorChannels = 4) :
    (CreateGLTexture s (some img) tag).2 =
      { s with
        textureIDs := s.textureIDs ++ [{ tag := tag, id := s.nextTextureID }]
        nextTextureID := s.nextTextureID + 1 } := by
  rcases h with h | h <;> simp [CreateGLTexture, h]

theorem loadAll_textureIDs (loads : List (ImageData × String)) :
    ∀ s : SceneState, (∀ p ∈ loads, p.1.colorChannels = 3 ∨ p.1.colorChannels = 4) →
      (loadAll s loads).textureIDs = s.textureIDs ++ expectedEntries s.nextTextureID loads := by
  induction loads with
  | nil => intro s _; simp [loadAll, expectedEntries]
  | cons p rest ih =>
      intro s hok
      rw [loadAll, createGLTexture_success s p.1 p.2 (hok p (by simp))]
      rw [ih _ (fun q hq => hok q (by simp [hq]))]
      simp [expectedEntries]

theorem findSlotAux_expected (loads : List (ImageData × String)) :
    ∀ (next k : Int) (i : ℕ) (hi : i < loads.length),
      (loads.map Prod.snd).Nodup →
      findSlotAux (expectedEntries next loads) (loads.get ⟨i, hi⟩).2 k = k + i := by
  induction loads with
  | nil => intro next k i hi _; exact absurd hi (Nat.not_lt_zero i)
  | cons p rest ih =>
      intro next k i hi hnd
      simp only [List.map_cons, List.nodup_cons] at hnd
      match i with
      | 0 => simp [expectedEntries, findSlotAux]
      | Nat.succ j =>
          have hj : j < rest.length := Nat.lt_of_succ_lt_succ hi
          have hmem : (rest.get ⟨j, hj⟩).2 ∈ rest.map Prod.snd :=
            List.mem_map_of_mem Prod.snd (rest.get_mem j hj)
          have hne : p.2 ≠ (rest.get ⟨j, hj⟩).2 := fun hh => hnd.1 (hh ▸ hmem)
          have := ih (next + 1) (k + 1) j hj hnd.2
          simp only [expectedEntries, findSlotAux, List.get, if_neg hne]
          rw [this]
          push_cast
          ring

theorem findIDAux_expected (loads : List (ImageData × String)) :
    ∀ (next : Int) (i : ℕ) (hi : i < loads.length),
      (loads.map Prod.snd).Nodup →
      findIDAux (expectedEntries next loads) (loads.get ⟨i, hi⟩).2 = next + i := by
  induction loads with
  | nil => intro next i hi _; exact absurd hi (Nat.not_lt_zero i)
  | cons p rest ih =>
      intro next i hi hnd
      simp only [List.map_cons, List.nodup_cons] at hnd
      match i with
      | 0 => simp [expectedEntries, findIDAux]
      | Nat.succ j =>
          have hj : j < rest.length := Nat.lt_of_succ_lt_succ hi
          have hmem : (rest.get ⟨j, hj⟩).2 ∈ rest.map Prod.snd :=
            List.mem_map_of_mem Prod.snd (rest.get_mem j hj)
          have hne : p.2 ≠ (rest.get ⟨j, hj⟩).2 := fun hh => hnd.1 (hh ▸ hmem)
          have := ih (next + 1) j hj hnd.2
          simp only [expectedEntries, findIDAux, List.get, if_neg hne]
          rw [this]
          push_cast
          ring

theorem execCall_snd (cosd sind : ℚ → ℚ) (c : SceneCall) (s : SceneState) :
    (execCall cosd sind s c).2 = s := by
  cases c <;> rfl

theorem execCalls_snd (cosd sind : ℚ → ℚ) (calls : List SceneCall) :
    ∀ s : SceneState, (execCalls cosd sind s calls).2 = s := by
  induction calls with
  | nil => intro s; rfl
  | cons c rest ih =>
      intro s
      simp [execCalls, execCall_snd, ih]

/-- Claim C1 (failing half, at the failing input): with the registry
holding only the `"plastic"` material, `FindMaterial` on the undefined tag
`"missing"` reports found (`true`) and leaves the out-parameter untouched,
instead of reporting not-found as the claim states — the computed `bFound`
flag is dropped at the `return(true)`. -/
theorem findMaterial_absent_tag_reports_found :
    (FindMaterial [plasticMaterial] "missing" uninitMaterial).1 = true ∧
    (FindMaterial [plasticMaterial] "missing" uninitMaterial).2 = uninitMaterial := by
  decide

/-- Claim C2: starting from an empty registry, after a sequence of
successful loads with pairwise-distinct tags (at most the 16-slot
capacity), `FindTextureSlot` on the i-th loaded tag returns `i` — the
number of successful loads that preceded it — and `FindTextureID` returns
the handle `glGenTextures` assigned at that load. -/
theorem textureSlot_load_order (s0 : SceneState) (loads : List (ImageData × String))
    (h0 : s0.textureIDs = [])
    (hok : ∀ p ∈ loads, p.1.colorChannels = 3 ∨ p.1.colorChannels = 4)
    (hnd : (loads.map Prod.snd).Nodup)
    (_hcap : loads.length ≤ 16)
    (i : ℕ) (hi : i < loads.length) :
    FindTextureSlot (loadAll s0 loads) (loads.get ⟨i, hi⟩).2 = (i : ℤ) ∧
    FindTextureID (loadAll s0 loads) (loads.get ⟨i, hi⟩).2 = s0.nextTextureID + (i : ℤ) := by
  unfold FindTextureSlot FindTextureID
  rw [loadAll_textureIDs loads s0 hok, h0, List.nil_append]
  refine ⟨?_, findIDAux_expected loads s0.nextTextureID i hi hnd⟩
  have := findSlotAux_expected loads s0.nextTextureID 0 i hi hnd
  simpa using this

/-- Witness for claim C2, realizing the spec's end-to-end example: loading
`"marble"`, `"glass"`, `"can"` in that order assigns `"can"` slot 2 and
the third fresh handle. -/
theorem textureSlot_load_order_witness :
    demoLoads.length ≤ 16 ∧
    FindTextureSlot (loadAll initialState demoLoads) "can" = 2 ∧
    FindTextureID (loadAll initialState demoLoads) "can" = 3 := by
  have h := textureSlot_load_order initialState demoLoads rfl
    (by decide) (by decide) (by decide) 2 (by decide)
  exact ⟨by decide, h.1, h.2⟩

/-- Claim C3: whenever the shader-manager pointer is non-null,
`SetTransformations` pushes as the `"model"` uniform exactly the matrix
product `Translate(t) * RotateX(rx) * RotateY(ry) * RotateZ(rz) * Scale(s)`
of the canonical world-axis rotation matrices (via `specModelMatrix`), for
every scale, rotation-angle and translation input and every cosine/sine
evaluator, and changes no `SceneManager` state. -/
theorem setTransformations_matches_spec (cosd sind : ℚ → ℚ) (s : SceneState)
    (h : s.hasShader = true) (scaleXYZ : Vec3)
    (XrotationDegrees YrotationDegrees ZrotationDegrees : ℚ) (positionXYZ : Vec3) :
    SetTransformations cosd sind s scaleXYZ
        XrotationDegrees YrotationDegrees ZrotationDegrees positionXYZ =
      ([TraceOp.setMat4Value "model"
          (specModelMatrix
            (cosd XrotationDegrees) (sind XrotationDegrees)
            (cosd YrotationDegrees) (sind YrotationDegrees)
            (cosd ZrotationDegrees) (sind ZrotationDegrees)
            scaleXYZ positionXYZ)], s) := by
  simp [SetTransformations, h, buildModelMatrix_eq_spec]

/-- Witness for claim C3 at the sample evaluators (cos = 3/5, sin = 4/5)
and concrete transform parameters. -/
theorem setTransformations_matches_spec_witness :
    initialState.hasShader = true ∧
    SetTransformations demoCos demoSin initialState (v3 2 3 4) 10 20 30 (v3 1 1 1) =
      ([TraceOp.setMat4Value "model"
          (specModelMatrix (3 / 5) (4 / 5) (3 / 5) (4 / 5) (3 / 5) (4 / 5)
            (v3 2 3 4) (v3 1 1 1))], initialState) :=
  ⟨rfl, setTransformations_matches_spec demoCos demoSin initialState rfl
    (v3 2 3 4) 10 20 30 (v3 1 1 1)⟩

/-- Claim C4: for a tag carried by no registry entry (and a non-null
shader manager), `FindTextureSlot` and `FindTextureID` return `-1`, and
`SetShaderTexture` still enables texture mode and binds the sampler to
`-1`, leaving the state unchanged. -/
theorem missing_texture_tag_binds_negative_one (s : SceneState) (tag : String)
    (hs : s.hasShader = true)
    (hmiss : tag ∉ s.textureIDs.map TEXTURE_ID.tag) :
    FindTextureSlot s tag = -1 ∧ FindTextureID s tag = -1 ∧
    (SetShaderTexture s tag).1 =
      [TraceOp.setIntValue "bUseTexture" 1,
       TraceOp.setSampler2DValue "objectTexture" (-1)] ∧
    (SetShaderTexture s tag).2 = s := by
  have hslot : FindTextureSlot s tag = -1 :=
    findSlotAux_not_mem s.textureIDs tag hmiss 0
  refine ⟨hslot, findIDAux_not_mem s.textureIDs tag hmiss, ?_, rfl⟩
  simp [SetShaderTexture, hs, hslot]

/-- Witness for claim C4 at the concrete render-phase instance the claim
names: after `LoadSceneTextures` (all six decodes succeeding) the registry
has no `"glass"` entry, yet `RenderDesktop` requests texture `"glass"`,
and `SetShaderTexture` on the prepared state binds sampler `-1`. -/
theorem missing_texture_tag_binds_negative_one_witness :
    "glass" ∉ preparedState.textureIDs.map TEXTURE_ID.tag ∧
    SceneCall.setShaderTexture "glass" ∈ RenderDesktopCalls ∧
    FindTextureSlot preparedState "glass" = -1 ∧
    FindTextureID preparedState "glass" = -1 ∧
    (SetShaderTexture preparedState "glass").1 =
      [TraceOp.setIntValue "bUseTexture" 1,
       TraceOp.setSampler2DValue "objectTexture" (-1)] ∧
    (SetShaderTexture preparedState "glass").2 = preparedState := by
  have hmiss : "glass" ∉ preparedState.textureIDs.map TEXTURE_ID.tag := by decide
  have h := missing_texture_tag_binds_negative_one preparedState "glass" rfl hmiss
  exact ⟨hmiss, by decide, h.1, h.2.1, h.2.2.1, h.2.2.2⟩

/-- Claim C5: a load whose image cannot be decoded, or whose channel count
is neither 3 nor 4, returns failure and leaves the texture registry — the
loaded-texture count and every `(tag, handle)` entry — exactly as it was. -/
theorem createGLTexture_failure_atomic (s : SceneState) (tag : String)
    (img : Option ImageData)
    (h : img = none ∨ ∃ d, img = some d ∧ d.colorChannels ≠ 3 ∧ d.colorChannels ≠ 4) :
    (CreateGLTexture s img tag).1 = false ∧
    (CreateGLTexture s img tag).2.textureIDs = s.textureIDs := by
  rcases h with h | ⟨d, rfl, h3, h4⟩
  · subst h; exact ⟨rfl, rfl⟩
  · simp [CreateGLTexture, h3, h4]

/-- Witness for claim C5 at a 2-channel image on the fresh state. -/
theorem createGLTexture_failure_atomic_witness :
    (CreateGLTexture initialState
        (some { width := 8, height := 8, colorChannels := 2 }) "gray").1 = false ∧
    (CreateGLTexture initialState
        (some { width := 8, height := 8, colorChannels := 2 }) "gray").2.textureIDs =
      initialState.textureIDs :=
  createGLTexture_failure_atomic initialState "gray"
    (some { width := 8, height := 8, colorChannels := 2 })
    (Or.inr ⟨{ width := 8, height := 8, colorChannels := 2 }, rfl, by decide, by decide⟩)

/-- Claim C6 (at the failing input): `DestroyGLTextures` emits only
`glGenTextures` calls — for a registry holding `("marble", handle 7)` it
allocates a fresh handle (100) and overwrites the stored one, issuing no
deletion of handle 7 — contradicting the documented "freeing" of the
texture slots. -/
theorem destroyGLTextures_reallocates_instead_of_deleting :
    (∀ s : SceneState, ((DestroyGLTextures s).1.all GLCall.isGen) = true) ∧
    DestroyGLTextures exampleTexState =
      ([GLCall.genTextures 100],
        { exampleTexState with
          textureIDs := [{ tag := "marble", id := 100 }]
          nextTextureID := 101 }) := by
  refine ⟨fun s => destroyAux_all_gen s.textureIDs s.nextTextureID, ?_⟩
  decide

/-- Claim C7: in the composer-level operation sequence of one
`RenderScene` invocation, every mesh draw is preceded — since the previous
draw, or the start of the trace — first by a transform push and after it
by at least one material, texture or flat-color push. -/
theorem renderScene_draw_prep_invariant : drawPrepOk RenderSceneCalls = true := by
  decide

/-- Claim C8: for every scene state and cosine/sine evaluator, one
`RenderScene` invocation leaves the state (texture registry, material
registry, loaded-texture count, shader pointer) unchanged, and a second
invocation issues the identical operation trace. -/
theorem renderScene_idempotent (cosd sind : ℚ → ℚ) (s : SceneState) :
    (RenderScene cosd sind s).2 = s ∧
    (RenderScene cosd sind ((RenderScene cosd sind s).2)).1 =
      (RenderScene cosd sind s).1 := by
  have h2 : (RenderScene cosd sind s).2 = s := execCalls_snd cosd sind RenderSceneCalls s
  refine ⟨h2, ?_⟩
  rw [h2]

theorem glmTranslate_zero_mul (A : Mat4) : (glmTranslate (v3 0 0 0)).mul A = A := by
  ext <;> simp [glmTranslate, Mat4.mul, v3]

theorem mul_glmScale_one (A : Mat4) : A.mul (glmScale (v3 1 1 1)) = A := by
  ext <;> simp [glmScale, Mat4.mul, v3]

theorem mul_glmRotate_zero_angle (A : Mat4) : A.mul (glmRotate 1 0 0 0 1) = A := by
  ext <;> simp [glmRotate, Mat4.mul]

/-- Claim C9 counterexample: at rotation angles rx = ry = 180 degrees
(cosine -1, sine 0) and rz = 0 — an input with more than one non-zero
rotation angle — exchanging the RotateX and RotateY factors of the
composed model matrix yields the very same matrix, refuting "swapping
rotation order changes the result whenever more than one angle is
non-zero". -/
theorem rotation_order_180deg_commutes :
    buildModelMatrix (-1) 0 (-1) 0 1 0 (v3 1 1 1) (v3 0 0 0) =
      ((((glmTranslate (v3 0 0 0)).mul (glmRotate (-1) 0 0 1 0)).mul
          (glmRotate (-1) 0 1 0 0)).mul (glmRotate 1 0 0 0 1)).mul
        (glmScale (v3 1 1 1)) := by
  have hswap : (glmRotate (-1) 0 1 0 0).mul (glmRotate (-1) 0 0 1 0) =
      (glmRotate (-1) 0 0 1 0).mul (glmRotate (-1) 0 1 0 0) := by
    ext <;> norm_num [glmRotate, Mat4.mul]
  simp only [buildModelMatrix, mul_glmScale_one, mul_glmRotate_zero_angle,
    glmTranslate_zero_mul]
  exact hswap

/-- Claim C9 (amended): swapping the rotation order can change the
composed model matrix when more than one rotation angle is non-zero — at
rx = ry = 90 degrees (cosine 0, sine 1), rz = 0, exchanging the RotateX
and RotateY factors yields a different matrix — though not at every such
input (180-degree X and Y rotations commute). -/
theorem rotation_order_90deg_differs :
    buildModelMatrix 0 1 0 1 1 0 (v3 1 1 1) (v3 0 0 0) ≠
      ((((glmTranslate (v3 0 0 0)).mul (glmRotate 0 1 0 1 0)).mul
          (glmRotate 0 1 1 0 0)).mul (glmRotate 1 0 0 0 1)).mul
        (glmScale (v3 1 1 1)) := by
  have hswap : (glmRotate 0 1 1 0 0).mul (glmRotate 0 1 0 1 0) ≠
      (glmRotate 0 1 0 1 0).mul (glmRotate 0 1 1 0 0) := by
    intro h
    have h01 := congrArg Mat4.m01 h
    norm_num [glmRotate, Mat4.mul] at h01
  intro h
  apply hswap
  simpa only [buildModelMatrix, mul_glmScale_one, mul_glmRotate_zero_angle,
    glmTranslate_zero_mul] using h

/-- Claim C10: when the shader-manager pointer is null, each of
`SetTransformations`, `SetShaderColor`, `SetShaderTexture` and
`SetTextureUVScale` emits no shader-parameter write and returns the state
unchanged — the null check guards every dereference. -/
theorem null_shader_guard (cosd sind : ℚ → ℚ) (s : SceneState)
    (h : s.hasShader = false) (scaleXYZ : Vec3) (xr yr zr : ℚ) (positionXYZ : Vec3)
    (r g b a u v : ℚ) (tag : String) :
    SetTransformations cosd sind s scaleXYZ xr yr zr positionXYZ = ([], s) ∧
    SetShaderColor s r g b a = ([], s) ∧
    SetShaderTexture s tag = ([], s) ∧
    SetTextureUVScale s u v = ([], s) := by
  refine ⟨?_, ?_, ?_, ?_⟩ <;>
    simp [SetTransformations, SetShaderColor, SetShaderTexture, SetTextureUVScale, h]

/-- Witness for claim C10 at the null-shader state and concrete
arguments. -/
theorem null_shader_guard_witness :
    noShaderState.hasShader = false ∧
    SetTransformations demoCos demoSin noShaderState (v3 1 1 1) 0 0 0 (v3 0 0 0) =
      ([], noShaderState) ∧
    SetShaderColor noShaderState 0.5 0.5 0.5 1 = ([], noShaderState) ∧
    SetShaderTexture noShaderState "marble" = ([], noShaderState) ∧
    SetTextureUVScale noShaderState 2 3 = ([], noShaderState) := by
  have h := null_shader_guard demoCos demoSin noShaderState rfl
    (v3 1 1 1) 0 0 0 (v3 0 0 0) 0.5 0.5 0.5 1 2 3 "marble"
  exact ⟨rfl, h.1, h.2.1, h.2.2.1, h.2.2.2⟩

end SceneMgr
